import Mathlib

/-!
Verification development for the agri-environmental dashboards repository
(nutrients, erosion, greenhouse gas, land use).

The Python sources are shallowly embedded:
* numeric cell contents (`OBS_VALUE`, `Actual area (ha)`) are modelled as
  `Option ℚ`, where `none` stands for a null/NaN cell produced by
  `pd.to_numeric(..., errors="coerce")` or missing data;
* arithmetic that pandas/numpy performs on already-aggregated floats is
  modelled by `FVal`, a rational number extended with the three non-finite
  IEEE values `nan`, `inf`, `ninf`, so that division by zero behaves as it
  does in numpy (`0/0 = nan`, `x/0 = ±inf`);
* `groupby(...).sum()` is modelled by listing the distinct keys occurring in
  the data and summing the non-null values of each key group (pandas skips
  NaN when summing and sums an all-NaN group to 0); pandas orders the groups
  by sorted key, but every property proved below is insensitive to the order
  of the grouped rows, so the embedding lists keys in first-occurrence order.
-/

/-- An IEEE-style scalar: a finite rational or one of the non-finite values.
Used for values produced by float division, which pandas/numpy never raise
on: `0/0` is NaN and `x/0` is `±inf`. -/
inductive FVal where
  | real (q : ℚ)
  | nan
  | inf
  | ninf
deriving DecidableEq, Repr

/-- Float division as numpy performs it on float64 scalars/columns:
exact rational division when the denominator is non-zero, `nan` for `0/0`,
and a signed infinity for `x/0` with `x ≠ 0`. -/
def fdiv (a b : ℚ) : FVal :=
  if b ≠ 0 then FVal.real (a / b)
  else if a = 0 then FVal.nan
  else if 0 < a then FVal.inf
  else FVal.ninf

/-- Multiplication of an IEEE-style scalar by the positive constant 100,
as in `(...) * 100` of the percent-change computation. -/
def fmul100 : FVal → FVal
  | FVal.real q => FVal.real (q * 100)
  | FVal.nan => FVal.nan
  | FVal.inf => FVal.inf
  | FVal.ninf => FVal.ninf

/-- IEEE-style addition: adding `nan` gives `nan`, adding opposite
infinities gives `nan`, otherwise infinities absorb finite values. -/
def fadd : FVal → FVal → FVal
  | FVal.nan, _ => FVal.nan
  | _, FVal.nan => FVal.nan
  | FVal.inf, FVal.ninf => FVal.nan
  | FVal.ninf, FVal.inf => FVal.nan
  | FVal.inf, _ => FVal.inf
  | _, FVal.inf => FVal.inf
  | FVal.ninf, _ => FVal.ninf
  | _, FVal.ninf => FVal.ninf
  | FVal.real a, FVal.real b => FVal.real (a + b)

/-- Sum of a list of IEEE-style scalars. -/
def fsum (l : List FVal) : FVal :=
  l.foldr fadd (FVal.real 0)

/-- Sum of a column of possibly-null cells, as `groupby(...).sum()` reduces
one group: null cells are skipped, and a group with only null cells (or no
cells) sums to 0. -/
def sumOptVals (l : List (Option ℚ)) : ℚ :=
  l.foldr (fun v acc => match v with | some q => q + acc | none => acc) 0

/-- The distinct keys of a column in order of first occurrence.  pandas
`groupby` orders groups by sorted key; every property proved below is
insensitive to the order of the grouped rows, so first-occurrence order is
a faithful model of the set of groups. -/
def uniqueKeys {α : Type} [DecidableEq α] : List α → List α
  | [] => []
  | x :: xs => x :: (uniqueKeys xs).filter fun y => decide (y ≠ x)

/-- Mean of a column of possibly-null cells, as `groupby(...).mean()` or
`Series.mean()` reduces it: nulls are skipped; if no non-null cell remains
the pandas result is NaN. -/
def meanOptVals (l : List (Option ℚ)) : FVal :=
  if (l.filterMap id).length = 0 then FVal.nan
  else FVal.real ((l.filterMap id).sum / ((l.filterMap id).length : ℚ))

/-! ## Nutrients dashboard (src/src/nutrients.py)

A row of `cleaned_data.csv` as used by `NutrientDashboard`: columns
`Reference area`, `Measure`, `Nutrients`, `TIME_PERIOD`, `OBS_VALUE`. -/

structure NRow where
  area : String
  measureName : String
  nutrients : String
  time : Int
  value : Option ℚ
deriving DecidableEq, Repr

/-- A row of the grouped table built by
`data.groupby(["Reference area", "Measure"], as_index=False)["OBS_VALUE"].sum()`
in `render_hori_stacked_plot`. -/
structure GRow where
  area : String
  measureName : String
  value : ℚ
deriving DecidableEq, Repr

/-- `groupby(["Reference area", "Measure"]).sum()`: one output row per
distinct (area, measure) key, whose value is the null-skipping sum of the
key group. -/
def groupbyAreaMeasureSum (rows : List NRow) : List GRow :=
  (uniqueKeys (rows.map fun r => (r.area, r.measureName))).map fun k =>
    { area := k.1, measureName := k.2,
      value := sumOptVals ((rows.filter fun r =>
        decide (r.area = k.1 ∧ r.measureName = k.2)).map fun r => r.value) }

/-- `grouped.groupby("Reference area").sum()` renamed to `Total`: the
per-area totals of the grouped table. -/
def totalByArea (g : List GRow) : List (String × ℚ) :=
  (uniqueKeys (g.map fun r => r.area)).map fun a =>
    (a, ((g.filter fun r => decide (r.area = a)).map fun r => r.value).sum)

/-- Looking up an area's `Total` after `grouped.merge(total, on="Reference area")`:
every grouped row's area occurs in the totals table, so the inner join
attaches to each row the total of its area. -/
def lookupTotal (t : List (String × ℚ)) (a : String) : ℚ :=
  match t.find? fun p => decide (p.1 = a) with
  | some p => p.2
  | none => 0

/-- A row of the final table of `render_hori_stacked_plot`, with the merged
`Total` column and the derived `Proportion` column. -/
structure PRow where
  area : String
  measureName : String
  value : ℚ
  total : ℚ
  proportion : FVal
deriving DecidableEq, Repr

/-- The data pipeline of `NutrientDashboard.render_hori_stacked_plot`
(nutrients.py lines 207-214): group by (area, measure) with SUM, total per
area, merge, then `Proportion = OBS_VALUE / Total` (float division). -/
def horiStackedTable (rows : List NRow) : List PRow :=
  (groupbyAreaMeasureSum rows).map fun r =>
    { area := r.area, measureName := r.measureName, value := r.value,
      total := lookupTotal (totalByArea (groupbyAreaMeasureSum rows)) r.area,
      proportion := fdiv r.value
        (lookupTotal (totalByArea (groupbyAreaMeasureSum rows)) r.area) }

/-- The per-area total of a grouped table, i.e. the value `lookupTotal`
returns for an area that occurs in the table. -/
def areaTotal (g : List GRow) (a : String) : ℚ :=
  ((g.filter fun r => decide (r.area = a)).map fun r => r.value).sum

/-- The texts of `NutrientDashboard.draw_proportion_bar` (nutrients.py lines
334-357): `total = value1 + value2` and each segment is labelled with
`value / total * 100` (float arithmetic on numpy sums). -/
def drawProportionTexts (value1 value2 : ℚ) : FVal × FVal :=
  (fmul100 (fdiv value1 (value1 + value2)),
   fmul100 (fdiv value2 (value1 + value2)))

/-- The time-filtered view of the nutrients data
(nutrients.py lines 45-48): keep rows with
`year_range[0] <= TIME_PERIOD <= year_range[1]` (both ends inclusive). -/
def nutrientsTimeFiltered (data : List NRow) (yearRange : Int × Int) : List NRow :=
  data.filter fun r => decide (yearRange.1 ≤ r.time ∧ r.time ≤ yearRange.2)

/-- The filtered view of the nutrients data (nutrients.py lines 45-51):
the time filter, then the area filter, which is skipped exactly when the
sentinel "All areas" is among the selected areas. -/
def nutrientsFilteredData (data : List NRow) (yearRange : Int × Int)
    (selectedAreas : List String) : List NRow :=
  if "All areas" ∉ selectedAreas then
    (nutrientsTimeFiltered data yearRange).filter fun r =>
      decide (r.area ∈ selectedAreas)
  else nutrientsTimeFiltered data yearRange

/-! ## Greenhouse gas dashboard (src/src/pages/greenhouse-gas.py)

A row of `greenhouse.csv` as used by `kpi_and_line_tab`: columns `MEASURE`,
`Reference area`, `TIME_PERIOD`, `OBS_VALUE`. -/

structure GhgRow where
  measureName : String
  area : String
  time : Int
  value : Option ℚ
deriving DecidableEq, Repr

/-- `df_filtered.groupby("TIME_PERIOD")["OBS_VALUE"].sum()`: one entry per
distinct year, with the null-skipping sum of that year's values. -/
def groupbyTimeSum (rows : List GhgRow) : List (Int × ℚ) :=
  (uniqueKeys (rows.map fun r => r.time)).map fun t =>
    (t, sumOptVals ((rows.filter fun r => decide (r.time = t)).map fun r => r.value))

/-- `.sort_index()`: sort the per-year series by year ascending.  The years
are distinct after grouping, so any correct sort gives the same list. -/
def sortByTime (l : List (Int × ℚ)) : List (Int × ℚ) :=
  List.insertionSort (fun p q => p.1 ≤ q.1) l

/-- `annual_emissions` of `kpi_and_line_tab` (greenhouse-gas.py lines
98-100): group the filtered rows by year, sum, sort by year. -/
def annual_emissions (rows : List GhgRow) : List (Int × ℚ) :=
  sortByTime (groupbyTimeSum rows)

/-- `pct_change` of `kpi_and_line_tab` (greenhouse-gas.py lines 103-109):
if the annual series has at least 2 points, `(last - first) / first * 100`
with float division; otherwise the literal number 0. -/
def pct_change (annual : List (Int × ℚ)) : FVal :=
  if 2 ≤ annual.length then
    match annual.head?, annual.getLast? with
    | some f, some z => fmul100 (fdiv (z.2 - f.2) f.2)
    | _, _ => FVal.real 0
  else FVal.real 0

/-- The whole KPI percent-change pipeline applied to the filtered rows. -/
def kpiPctChange (rows : List GhgRow) : FVal :=
  pct_change (annual_emissions rows)

/-- The null-skipping sum of the (year, measure) group of `k` in the
greenhouse rows. -/
def ghgKeySum (rows : List GhgRow) (k : Int × String) : ℚ :=
  sumOptVals ((rows.filter fun r =>
    decide (r.time = k.1 ∧ r.measureName = k.2)).map fun r => r.value)

/-- `df_filtered.groupby(["TIME_PERIOD", "MEASURE"])["OBS_VALUE"].sum()`
(greenhouse-gas.py lines 120-123): one entry per distinct (year, measure)
key with the null-skipping sum of the group. -/
def groupbyTimeMeasureSum (rows : List GhgRow) : List (Int × String × ℚ) :=
  (uniqueKeys (rows.map fun r => (r.time, r.measureName))).map fun k =>
    (k.1, k.2, ghgKeySum rows k)

/-- One cell of the wide table built by
`.pivot(index="TIME_PERIOD", columns="MEASURE", values="OBS_VALUE")`
(greenhouse-gas.py line 124): the grouped value when the (year, measure)
pair was observed, and the missing value (NaN) otherwise — there is no
`fillna` on this pivot. -/
def ghgPivotCell (g : List (Int × String × ℚ)) (t : Int) (c : String) : Option ℚ :=
  (g.find? fun e => decide (e.1 = t ∧ e.2.1 = c)).map fun e => e.2.2

/-! ## Erosion dashboard (src/src/pages/erosion_charts.py)

A row of `erosion_data.csv`: columns `Country`, `Time`, `Types of Erosion`,
`EROSION_LEVEL`, `OBS_VALUE` (made numeric with `errors="coerce"`, so null
cells become NaN, modelled as `none`). -/

structure ERow where
  country : String
  time : Int
  erosionType : String
  level : String
  value : Option ℚ
deriving DecidableEq, Repr

/-- `filter_data` (erosion_charts.py lines 73-86).  An empty country /
erosion-type / severity selection is falsy in Python and imposes no
restriction; the year slider value is a 2-tuple and hence always truthy,
so the inclusive time filter always applies. -/
def filter_data (df : List ERow) (countries : List String) (years : Int × Int)
    (erosionTypes : List String) (severityLevels : List String) : List ERow :=
  let d1 := if countries.isEmpty then df
    else df.filter fun r => decide (r.country ∈ countries)
  let d2 := d1.filter fun r => decide (years.1 ≤ r.time ∧ r.time ≤ years.2)
  let d3 := if erosionTypes.isEmpty then d2
    else d2.filter fun r => decide (r.erosionType ∈ erosionTypes)
  if severityLevels.isEmpty then d3
  else d3.filter fun r => decide (r.level ∈ severityLevels)

/-- The time and dimension stages of `filter_data` alone, with no country
restriction. -/
def eroTimeDimFiltered (df : List ERow) (years : Int × Int)
    (erosionTypes : List String) (severityLevels : List String) : List ERow :=
  let d2 := df.filter fun r => decide (years.1 ≤ r.time ∧ r.time ≤ years.2)
  let d3 := if erosionTypes.isEmpty then d2
    else d2.filter fun r => decide (r.erosionType ∈ erosionTypes)
  if severityLevels.isEmpty then d3
  else d3.filter fun r => decide (r.level ∈ severityLevels)

/-- The rows with `EROSION_LEVEL == "_T"` (total erosion). -/
def totalRows (df : List ERow) : List ERow :=
  df.filter fun r => decide (r.level = "_T")

/-- The grouped table of `create_time_series_chart` (erosion_charts.py
lines 93-94): restrict to total erosion, group by (country, year, erosion
type), reduce `OBS_VALUE` with the null-skipping SUM. -/
def timeSeriesData (df : List ERow) : List ((String × Int × String) × ℚ) :=
  (uniqueKeys ((totalRows df).map fun r => (r.country, r.time, r.erosionType))).map fun k =>
    (k, sumOptVals (((totalRows df).filter fun r =>
      decide ((r.country, r.time, r.erosionType) = k)).map fun r => r.value))

/-- The average-total-erosion KPI of `main` (erosion_charts.py lines
269-271): the literal number 0 when the filtered view is empty, otherwise
the pandas mean (null-skipping; NaN when no non-null value remains) of
`OBS_VALUE` over the rows with `EROSION_LEVEL == "_T"`. -/
def avgTotalErosion (filtered : List ERow) : FVal :=
  if filtered.isEmpty then FVal.real 0
  else meanOptVals ((totalRows filtered).map fun r => r.value)

/-- The grouped table of `create_erosion_comparison_chart`
(erosion_charts.py lines 121-122): restrict to total erosion, group by
(country, erosion type), reduce `OBS_VALUE` with MEAN. -/
def comparisonData (df : List ERow) : List ((String × String) × FVal) :=
  (uniqueKeys ((totalRows df).map fun r => (r.country, r.erosionType))).map fun k =>
    (k, meanOptVals (((totalRows df).filter fun r =>
      decide ((r.country, r.erosionType) = k)).map fun r => r.value))

/-! ## Land use dashboard (src/src/pages/land_charts.py)

A row of `land_data.csv`: columns `Country`, `Time`, `Types of Land`,
`Actual area (ha)` (made numeric with `errors="coerce"`). -/

structure LRow where
  country : String
  time : Int
  landType : String
  area : Option ℚ
deriving DecidableEq, Repr

/-- `filter_data` (land_charts.py lines 79-90), same shape as the erosion
filter: empty selections impose no restriction, the time filter is
inclusive on both ends. -/
def land_filter_data (df : List LRow) (countries : List String)
    (years : Int × Int) (landTypes : List String) : List LRow :=
  let d1 := if countries.isEmpty then df
    else df.filter fun r => decide (r.country ∈ countries)
  let d2 := d1.filter fun r => decide (years.1 ≤ r.time ∧ r.time ≤ years.2)
  if landTypes.isEmpty then d2
  else d2.filter fun r => decide (r.landType ∈ landTypes)

/-- The time and land-type stages of `land_filter_data` alone. -/
def landTimeTypeFiltered (df : List LRow) (years : Int × Int)
    (landTypes : List String) : List LRow :=
  let d2 := df.filter fun r => decide (years.1 ≤ r.time ∧ r.time ≤ years.2)
  if landTypes.isEmpty then d2
  else d2.filter fun r => decide (r.landType ∈ landTypes)

/-- The null-skipping sum of the (year, land type) group of `k` in the
land rows. -/
def landKeySum (rows : List LRow) (k : Int × String) : ℚ :=
  sumOptVals ((rows.filter fun r =>
    decide (r.time = k.1 ∧ r.landType = k.2)).map fun r => r.area)

/-- `df.groupby(["Time", "Types of Land"])["Actual area (ha)"].sum()`
(land_charts.py line 98). -/
def groupbyTimeLandSum (rows : List LRow) : List (Int × String × ℚ) :=
  (uniqueKeys (rows.map fun r => (r.time, r.landType))).map fun k =>
    (k.1, k.2, landKeySum rows k)

/-- One cell of the wide table built by
`.pivot(index="Time", columns="Types of Land", values="Actual area (ha)").fillna(0)`
(land_charts.py line 99): the grouped value when the (year, land type) pair
was observed, and 0 — from `fillna(0)` — otherwise. -/
def landPivotCell (g : List (Int × String × ℚ)) (t : Int) (c : String) : ℚ :=
  ((g.find? fun e => decide (e.1 = t ∧ e.2.1 = c)).map fun e => e.2.2).getD 0

/-- `df.groupby("Country")["Actual area (ha)"].sum()` of
`create_top_countries_chart` (land_charts.py line 269). -/
def landCountryTotals (df : List LRow) : List (String × ℚ) :=
  (uniqueKeys (df.map fun r => r.country)).map fun c =>
    (c, sumOptVals ((df.filter fun r => decide (r.country = c)).map fun r => r.area))

/-- `.sort_values(ascending=True)`: sort by the value column ascending.
pandas uses an unstable quicksort, so the order among tied values is not
specified; this model uses a deterministic sort, and no property proved
below depends on the order of tied values. -/
def sort_values_asc (l : List (String × ℚ)) : List (String × ℚ) :=
  List.insertionSort (fun p q => p.2 ≤ q.2) l

/-- `.tail(n)`: the last `n` entries (all of them when fewer). -/
def tail_n (n : Nat) (l : List (String × ℚ)) : List (String × ℚ) :=
  l.drop (l.length - n)

/-- The ranking pipeline of `create_top_countries_chart` (land_charts.py
lines 268-269): group by country with SUM, sort ascending by the total,
keep the last `n` rows. -/
def top_countries (df : List LRow) (n : Nat) : List (String × ℚ) :=
  tail_n n (sort_values_asc (landCountryTotals df))

/-! ## Concrete inputs used by counterexamples and witnesses. -/

/-- The spec's end-to-end proportion scenario, written as nutrients rows:
entity A has values 10 (dim X) and 30 (dim Y), entity B has the single
value 0 (dim X). -/
def scenarioRows : List NRow :=
  [{ area := "A", measureName := "X", nutrients := "N", time := 2015, value := some 10 },
   { area := "A", measureName := "Y", nutrients := "N", time := 2015, value := some 30 },
   { area := "B", measureName := "X", nutrients := "N", time := 2015, value := some 0 }]

/-- Greenhouse rows realising the spec's series `[2015:0, 2020:150]`. -/
def ghgZeroFirstRows : List GhgRow :=
  [{ measureName := "CH4", area := "France", time := 2015, value := some 0 },
   { measureName := "CH4", area := "France", time := 2020, value := some 150 }]

/-- Two land rows observing (2000, Arable land) and (2001, Permanent
pasture) only, so the grid cell (2000, Permanent pasture) is unseen. -/
def landPivotExample : List LRow :=
  [{ country := "France", time := 2000, landType := "Arable land", area := some 5 },
   { country := "France", time := 2001, landType := "Permanent pasture", area := some 3 }]

/-- Two countries with distinct totals 1 < 2, to exhibit the sort order of
the ranking chart. -/
def landRankExample : List LRow :=
  [{ country := "Austria", time := 2000, landType := "Arable land", area := some 1 },
   { country := "Belgium", time := 2000, landType := "Arable land", area := some 2 }]

/-- One total-erosion group containing a null cell, to exercise the
null-skipping SUM. -/
def erosionExample : List ERow :=
  [{ country := "France", time := 2000, erosionType := "Wind erosion",
     level := "_T", value := some 2 },
   { country := "France", time := 2000, erosionType := "Wind erosion",
     level := "_T", value := none }]

/-! Helper lemmas for the proportion pipeline. -/

theorem lookup_map_self {α β : Type} [DecidableEq α] (f : α → β) (l : List α)
    (a : α) (h : a ∈ l) :
    (l.map fun x => (x, f x)).find? (fun p => decide (p.1 = a)) = some (a, f a) := by
  induction l with
  | nil => cases h
  | cons x xs ih =>
    by_cases hx : x = a
    · subst hx
      simp [List.find?]
    · have hmem : a ∈ xs := by
        cases h with
        | head => exact absurd rfl hx
        | tail _ h2 => exact h2
      simp [List.find?, hx, ih hmem]

theorem sum_map_div (l : List ℚ) (T : ℚ) :
    (l.map fun q => q / T).sum = l.sum / T := by
  induction l with
  | nil => simp
  | cons x xs ih => simp [ih, add_div]

theorem fsum_map_real (l : List ℚ) :
    fsum (l.map FVal.real) = FVal.real l.sum := by
  induction l with
  | nil => rfl
  | cons x xs ih => simp [fsum, List.foldr] at ih ⊢; rw [ih]; rfl

theorem mem_uniqueKeys {α : Type} [DecidableEq α] (l : List α) (a : α) :
    a ∈ uniqueKeys l ↔ a ∈ l := by
  induction l with
  | nil => simp [uniqueKeys]
  | cons x xs ih =>
    by_cases hx : a = x
    · subst hx
      simp [uniqueKeys]
    · simp [uniqueKeys, hx, List.mem_filter, ih]

theorem lookupTotal_eq_areaTotal (g : List GRow) (a : String)
    (h : a ∈ g.map fun r => r.area) :
    lookupTotal (totalByArea g) a = areaTotal g a := by
  unfold lookupTotal totalByArea areaTotal
  rw [lookup_map_self (fun a => ((g.filter fun r => decide (r.area = a)).map
    fun r => r.value).sum) (uniqueKeys (g.map fun r => r.area)) a
    ((mem_uniqueKeys _ _).mpr h)]

theorem fdiv_of_ne_zero (v T : ℚ) (h : T ≠ 0) : fdiv v T = FVal.real (v / T) := by
  unfold fdiv
  simp [h]

theorem hori_filter_eq (rows : List NRow) (a : String) :
    (((horiStackedTable rows).filter fun r => decide (r.area = a)).map
      fun r => r.proportion)
      = ((groupbyAreaMeasureSum rows).filter fun r => decide (r.area = a)).map
          fun r => fdiv r.value
            (lookupTotal (totalByArea (groupbyAreaMeasureSum rows)) r.area) := by
  unfold horiStackedTable
  rw [List.filter_map, List.map_map]
  rfl

/-- C1: in each partition of the proportion column of
`render_hori_stacked_plot` whose total is non-zero, the proportions sum to
1 (hence to 1.0 within the 1e-9 tolerance; the model computes with exact
rationals, so the sum is exactly 1). -/
theorem C1_proportion_partition_sums_to_one (rows : List NRow) (a : String)
    (hmem : a ∈ (groupbyAreaMeasureSum rows).map fun r => r.area)
    (hT : areaTotal (groupbyAreaMeasureSum rows) a ≠ 0) :
    ∃ s : ℚ,
      fsum (((horiStackedTable rows).filter fun r => decide (r.area = a)).map
        fun r => r.proportion) = FVal.real s
      ∧ |s - 1| ≤ 1 / 1000000000 := by
  refine ⟨1, ?_, by norm_num⟩
  have hTot : lookupTotal (totalByArea (groupbyAreaMeasureSum rows)) a
      = areaTotal (groupbyAreaMeasureSum rows) a :=
    lookupTotal_eq_areaTotal (groupbyAreaMeasureSum rows) a hmem
  rw [hori_filter_eq]
  have hstep : ((groupbyAreaMeasureSum rows).filter fun r => decide (r.area = a)).map
      (fun r => fdiv r.value
        (lookupTotal (totalByArea (groupbyAreaMeasureSum rows)) r.area))
      = ((groupbyAreaMeasureSum rows).filter fun r => decide (r.area = a)).map
          fun r => FVal.real (r.value / areaTotal (groupbyAreaMeasureSum rows) a) := by
    apply List.map_congr_left
    intro r hr
    have hra : r.area = a := by
      have := (List.mem_filter.mp hr).2
      simpa using this
    rw [hra, hTot, fdiv_of_ne_zero _ _ hT]
  rw [hstep]
  have hcomp : (((groupbyAreaMeasureSum rows).filter fun r => decide (r.area = a)).map
      fun r => FVal.real (r.value / areaTotal (groupbyAreaMeasureSum rows) a))
      = ((((groupbyAreaMeasureSum rows).filter fun r => decide (r.area = a)).map
          fun r => r.value / areaTotal (groupbyAreaMeasureSum rows) a).map FVal.real) := by
    rw [List.map_map]
    rfl
  rw [hcomp, fsum_map_real]
  have hvals : (((groupbyAreaMeasureSum rows).filter fun r => decide (r.area = a)).map
      fun r => r.value / areaTotal (groupbyAreaMeasureSum rows) a)
      = ((((groupbyAreaMeasureSum rows).filter fun r => decide (r.area = a)).map
          fun r => r.value).map fun q => q / areaTotal (groupbyAreaMeasureSum rows) a) := by
    rw [List.map_map]
    rfl
  rw [hvals, sum_map_div]
  have : ((((groupbyAreaMeasureSum rows).filter fun r => decide (r.area = a)).map
      fun r => r.value).sum) = areaTotal (groupbyAreaMeasureSum rows) a := rfl
  rw [this, div_self hT]

/-- Witness for C1 at a concrete input: area A with grouped values 10 and
30, total 40. -/
theorem C1_witness :
    ("A" ∈ (groupbyAreaMeasureSum scenarioRows).map fun r => r.area)
    ∧ areaTotal (groupbyAreaMeasureSum scenarioRows) "A" ≠ 0
    ∧ ∃ s : ℚ,
        fsum (((horiStackedTable scenarioRows).filter fun r =>
          decide (r.area = "A")).map fun r => r.proportion) = FVal.real s
        ∧ |s - 1| ≤ 1 / 1000000000 :=
  ⟨by decide,
    by simp +decide [areaTotal, groupbyAreaMeasureSum, scenarioRows, uniqueKeys, sumOptVals]; norm_num,
    C1_proportion_partition_sums_to_one scenarioRows "A" (by decide)
      (by simp +decide [areaTotal, groupbyAreaMeasureSum, scenarioRows, uniqueKeys, sumOptVals]; norm_num)⟩

/-- C2 counterexample: in the spec's own end-to-end scenario the proportion
computed for entity B (partition total 0) is the IEEE NaN produced by the
plain float division `OBS_VALUE / Total`, not a designated DivisionByZero
marker rendered as "N/A" — so the code does silently emit a NaN; likewise
`draw_proportion_bar` with two zero sums labels its segments with NaN
percentages. -/
theorem C2_counterexample :
    (((horiStackedTable scenarioRows).filter fun r => decide (r.area = "B")).map
      fun r => r.proportion) = [FVal.nan]
    ∧ (drawProportionTexts 0 0).1 = FVal.nan := by
  constructor
  · simp +decide [horiStackedTable, groupbyAreaMeasureSum, totalByArea, lookupTotal,
      scenarioRows, uniqueKeys, sumOptVals, fdiv, List.find?]
  · simp [drawProportionTexts, fdiv, fmul100]

/-- C2 amended: when a partition's total in `render_hori_stacked_plot` is
0, the row's proportion is a non-finite IEEE value — NaN when the row's
value is 0, a signed infinity otherwise — and never a finite number; no
distinguishable DivisionByZero marker or "N/A" rendering exists, the NaN
flows into the chart unexamined. -/
theorem C2_amended_zero_total_gives_non_finite (rows : List NRow) (r : PRow)
    (hr : r ∈ horiStackedTable rows) (hT : r.total = 0) :
    r.proportion = FVal.nan ∨ r.proportion = FVal.inf ∨ r.proportion = FVal.ninf := by
  obtain ⟨g, hg, rfl⟩ := List.mem_map.mp hr
  simp only at hT ⊢
  rw [hT]
  unfold fdiv
  by_cases h0 : g.value = 0
  · simp [h0]
  · by_cases hpos : 0 < g.value
    · simp [h0, hpos]
    · simp [h0, hpos]

/-- Witness for the amended C2 at the scenario's entity B row. -/
theorem C2_amended_witness :
    ((⟨"B", "X", 0, 0, FVal.nan⟩ : PRow) ∈ horiStackedTable scenarioRows
    ∧ (⟨"B", "X", 0, 0, FVal.nan⟩ : PRow).total = 0)
    ∧ ((⟨"B", "X", 0, 0, FVal.nan⟩ : PRow).proportion = FVal.nan
      ∨ (⟨"B", "X", 0, 0, FVal.nan⟩ : PRow).proportion = FVal.inf
      ∨ (⟨"B", "X", 0, 0, FVal.nan⟩ : PRow).proportion = FVal.ninf) :=
  ⟨⟨by simp +decide [horiStackedTable, groupbyAreaMeasureSum, totalByArea, lookupTotal,
      scenarioRows, uniqueKeys, sumOptVals, fdiv, List.find?],
    rfl⟩,
   C2_amended_zero_total_gives_non_finite scenarioRows _
     (by simp +decide [horiStackedTable, groupbyAreaMeasureSum, totalByArea, lookupTotal,
        scenarioRows, uniqueKeys, sumOptVals, fdiv, List.find?])
     rfl⟩

/-- C3 counterexample: over the series [2015:0, 2020:150] the KPI
percent-change of `kpi_and_line_tab` is `+inf` (the claim requires a "not
applicable" marker and explicitly "not +inf"), and over a single-point
series it is the ordinary number 0, not a marker. -/
theorem C3_counterexample :
    kpiPctChange ghgZeroFirstRows = FVal.inf
    ∧ pct_change [((2015 : Int), (0 : ℚ)), (2020, 150)] = FVal.inf
    ∧ pct_change [((2015 : Int), (100 : ℚ))] = FVal.real 0 := by
  refine ⟨?_, ?_, ?_⟩
  · simp +decide [kpiPctChange, annual_emissions, groupbyTimeSum, sortByTime,
      ghgZeroFirstRows, uniqueKeys, sumOptVals, List.insertionSort, List.orderedInsert,
      pct_change, fdiv, fmul100]
  · simp [pct_change, fdiv, fmul100]
  · simp [pct_change]

theorem pct_change_of_some (annual : List (Int × ℚ)) (f z : Int × ℚ)
    (hf : annual.head? = some f) (hz : annual.getLast? = some z)
    (h2 : 2 ≤ annual.length) :
    pct_change annual = fmul100 (fdiv (z.2 - f.2) f.2) := by
  unfold pct_change
  rw [if_pos h2, hf, hz]

/-- C3 amended: with at least 2 time points and a non-zero first value,
`pct_change` returns `(last - first) / first * 100` (so [2015:100,
2020:150] yields 50.0); with fewer than 2 time points it returns the
ordinary number 0, and with a zero first value it returns a non-finite
IEEE value (`+inf`, `-inf` or NaN) — in neither edge case a designated
"not applicable" marker. -/
theorem C3_amended_pct_change :
    (∀ annual : List (Int × ℚ), annual.length < 2 → pct_change annual = FVal.real 0)
    ∧ (∀ (annual : List (Int × ℚ)) (f z : Int × ℚ),
        annual.head? = some f → annual.getLast? = some z → 2 ≤ annual.length →
        (f.2 ≠ 0 → pct_change annual = FVal.real ((z.2 - f.2) / f.2 * 100))
        ∧ (f.2 = 0 → pct_change annual = FVal.nan ∨ pct_change annual = FVal.inf
            ∨ pct_change annual = FVal.ninf)) := by
  constructor
  · intro annual h
    unfold pct_change
    rw [if_neg (by omega)]
  · intro annual f z hf hz h2
    constructor
    · intro hfz
      rw [pct_change_of_some annual f z hf hz h2]
      simp [fdiv, hfz, fmul100]
    · intro hfz
      rw [pct_change_of_some annual f z hf hz h2]
      unfold fdiv
      rw [hfz, sub_zero]
      by_cases h0 : z.2 = 0
      · simp [h0, fmul100]
      · by_cases hpos : 0 < z.2
        · simp [h0, hpos, fmul100]
        · simp [h0, hpos, fmul100]

/-- Witness for the amended C3: the series [2015:100, 2020:150] has a
non-zero first value, and the percent change evaluates to 50. -/
theorem C3_amended_witness :
    ([((2015 : Int), (100 : ℚ)), (2020, 150)].head? = some (2015, 100))
    ∧ 2 ≤ [((2015 : Int), (100 : ℚ)), (2020, 150)].length
    ∧ ((100 : ℚ) ≠ 0)
    ∧ pct_change [((2015 : Int), (100 : ℚ)), (2020, 150)]
        = FVal.real ((150 - 100) / 100 * 100)
    ∧ (((150 : ℚ) - 100) / 100 * 100 = 50) :=
  ⟨rfl, by decide, by norm_num,
    (C3_amended_pct_change.2 [((2015 : Int), (100 : ℚ)), (2020, 150)]
      (2015, 100) (2020, 150) rfl rfl (by decide)).1 (by norm_num),
    by norm_num⟩

theorem find_keyed_some (f : Int × String → ℚ) (keys : List (Int × String))
    (t : Int) (c : String) (h : (t, c) ∈ keys) :
    ((keys.map fun k => (k.1, k.2, f k)).find? fun e => decide (e.1 = t ∧ e.2.1 = c))
      = some (t, c, f (t, c)) := by
  induction keys with
  | nil => cases h
  | cons k ks ih =>
    by_cases hk : k = (t, c)
    · subst hk
      rw [List.map_cons, List.find?_cons_of_pos _ (by simp)]
    · have hmem : (t, c) ∈ ks := by
        cases h with
        | head => exact absurd rfl hk
        | tail _ h2 => exact h2
      rw [List.map_cons, List.find?_cons_of_neg _ ?_, ih hmem]
      simp only [decide_eq_true_eq]
      rintro ⟨h1, h2⟩
      apply hk
      cases k
      simp_all

theorem find_keyed_none (f : Int × String → ℚ) (keys : List (Int × String))
    (t : Int) (c : String) (h : (t, c) ∉ keys) :
    ((keys.map fun k => (k.1, k.2, f k)).find? fun e => decide (e.1 = t ∧ e.2.1 = c))
      = none := by
  rw [List.find?_eq_none]
  intro x hx
  obtain ⟨k, hk, rfl⟩ := List.mem_map.mp hx
  simp only [decide_eq_true_eq]
  rintro ⟨h1, h2⟩
  apply h
  cases k
  simp_all

/-- C4 counterexample: in the land stacked-area pivot, the grid cell
(2000, Permanent pasture) — whose year and land type both occur in the
data but whose combination was never observed — is filled with 0 by
`fillna(0)`, not with a "no data" sentinel. -/
theorem C4_counterexample :
    ((2000, "Permanent pasture") ∉ landPivotExample.map fun r => (r.time, r.landType))
    ∧ ((2000 : Int) ∈ landPivotExample.map fun r => r.time)
    ∧ ("Permanent pasture" ∈ landPivotExample.map fun r => r.landType)
    ∧ landPivotCell (groupbyTimeLandSum landPivotExample) 2000 "Permanent pasture" = 0 := by
  refine ⟨by decide, by decide, by decide, ?_⟩
  simp +decide [landPivotCell, groupbyTimeLandSum, landKeySum, landPivotExample,
    uniqueKeys, sumOptVals, List.find?]

/-- C4 amended: the greenhouse line-chart pivot (no `fillna`) maps every
observed (year, measure) pair to its grouped sum — so unpivoting the wide
cells reconstructs the grouped values — and leaves every unseen pair as
the missing-value sentinel; the land stacked-area pivot instead fills
every unseen (year, land type) cell with 0 via `fillna(0)`. -/
theorem C4_amended_pivot_cells (rows : List GhgRow) (lrows : List LRow)
    (t : Int) (c : String) :
    ((t, c) ∈ rows.map (fun r => (r.time, r.measureName)) →
      ghgPivotCell (groupbyTimeMeasureSum rows) t c = some (ghgKeySum rows (t, c)))
    ∧ (ghgKeySum rows (t, c) = sumOptVals ((rows.filter fun r =>
        decide (r.time = t ∧ r.measureName = c)).map fun r => r.value))
    ∧ ((t, c) ∉ rows.map (fun r => (r.time, r.measureName)) →
      ghgPivotCell (groupbyTimeMeasureSum rows) t c = none)
    ∧ ((t, c) ∉ lrows.map (fun r => (r.time, r.landType)) →
      landPivotCell (groupbyTimeLandSum lrows) t c = 0) := by
  refine ⟨?_, rfl, ?_, ?_⟩
  · intro h
    unfold ghgPivotCell groupbyTimeMeasureSum
    rw [find_keyed_some (ghgKeySum rows) _ t c ((mem_uniqueKeys _ _).mpr h)]
    rfl
  · intro h
    unfold ghgPivotCell groupbyTimeMeasureSum
    rw [find_keyed_none (ghgKeySum rows) _ t c (fun hmem => h ((mem_uniqueKeys _ _).mp hmem))]
    rfl
  · intro h
    unfold landPivotCell groupbyTimeLandSum
    rw [find_keyed_none (landKeySum lrows) _ t c (fun hmem => h ((mem_uniqueKeys _ _).mp hmem))]
    rfl

/-- Witness for the amended C4 at concrete data: the observed greenhouse
cell (2015, CH4) holds its grouped sum, and the unseen land cell (2000,
Permanent pasture) is filled with 0. -/
theorem C4_amended_witness :
    (((2015 : Int), "CH4") ∈ ghgZeroFirstRows.map (fun r => (r.time, r.measureName))
    ∧ ghgPivotCell (groupbyTimeMeasureSum ghgZeroFirstRows) 2015 "CH4"
        = some (ghgKeySum ghgZeroFirstRows (2015, "CH4")))
    ∧ (((2000 : Int), "Permanent pasture") ∉ landPivotExample.map (fun r => (r.time, r.landType))
    ∧ landPivotCell (groupbyTimeLandSum landPivotExample) 2000 "Permanent pasture" = 0) :=
  ⟨⟨by decide,
    (C4_amended_pivot_cells ghgZeroFirstRows landPivotExample 2015 "CH4").1 (by decide)⟩,
   ⟨by decide,
    (C4_amended_pivot_cells ghgZeroFirstRows landPivotExample 2000
      "Permanent pasture").2.2.2 (by decide)⟩⟩

theorem sumOptVals_eq_filterMap (l : List (Option ℚ)) :
    sumOptVals l = (l.filterMap id).sum := by
  induction l with
  | nil => rfl
  | cons x xs ih =>
    cases x with
    | none => simpa [sumOptVals] using ih
    | some q => simp [sumOptVals] at ih ⊢; rw [ih]

theorem sumOptVals_all_none (l : List (Option ℚ)) (h : ∀ v ∈ l, v = none) :
    sumOptVals l = 0 := by
  induction l with
  | nil => rfl
  | cons x xs ih =>
    have hx : x = none := h x (List.mem_cons_self x xs)
    subst hx
    exact ih fun v hv => h v (List.mem_cons_of_mem none hv)

/-- C5: the SUM aggregation of `create_time_series_chart` sums exactly the
non-null values of every group (nulls are excluded, not coerced to 0), a
group whose values are all null sums to 0, and an empty filtered view
yields an empty grouped table, not an error. -/
theorem C5_sum_aggregation_semantics :
    (∀ (df : List ERow) (k : String × Int × String) (v : ℚ),
      (k, v) ∈ timeSeriesData df →
        v = (((totalRows df).filter fun r =>
          decide ((r.country, r.time, r.erosionType) = k)).filterMap
            fun r => r.value).sum)
    ∧ (∀ (df : List ERow) (k : String × Int × String) (v : ℚ),
      (k, v) ∈ timeSeriesData df →
      (∀ r ∈ (totalRows df).filter fun r =>
          decide ((r.country, r.time, r.erosionType) = k), r.value = none) →
      v = 0)
    ∧ timeSeriesData ([] : List ERow) = [] := by
  refine ⟨?_, ?_, rfl⟩
  · intro df k v hmem
    unfold timeSeriesData at hmem
    obtain ⟨k2, hk2, heq⟩ := List.mem_map.mp hmem
    injection heq with h1 h2
    subst h1
    rw [← h2, sumOptVals_eq_filterMap, List.filterMap_map]
    rfl
  · intro df k v hmem hnull
    unfold timeSeriesData at hmem
    obtain ⟨k2, hk2, heq⟩ := List.mem_map.mp hmem
    injection heq with h1 h2
    subst h1
    rw [← h2]
    apply sumOptVals_all_none
    intro w hw
    obtain ⟨r, hr, rfl⟩ := List.mem_map.mp hw
    exact hnull r hr

/-- Witness for C5 at a concrete group with a null cell: the group
(France, 2000, Wind erosion) holds values [2, null] and its SUM is the
sum of the non-null values. -/
theorem C5_witness :
    ((("France", (2000 : Int), "Wind erosion"), (2 : ℚ)) ∈ timeSeriesData erosionExample)
    ∧ (2 : ℚ) = (((totalRows erosionExample).filter fun r =>
        decide ((r.country, r.time, r.erosionType)
          = ("France", (2000 : Int), "Wind erosion"))).filterMap
        fun r => r.value).sum := by
  have hmem : ((("France", (2000 : Int), "Wind erosion"), (2 : ℚ))
      ∈ timeSeriesData erosionExample) := by
    simp +decide [timeSeriesData, totalRows, erosionExample, uniqueKeys, sumOptVals]
  exact ⟨hmem, C5_sum_aggregation_semantics.1 erosionExample _ 2 hmem⟩

theorem filterMap_id_filter_ne_none (l : List (Option ℚ)) :
    ((l.filter fun v => decide (v ≠ none)).filterMap id) = l.filterMap id := by
  induction l with
  | nil => rfl
  | cons x xs ih => cases x <;> simpa using ih

theorem filterMap_id_all_none (l : List (Option ℚ)) (h : ∀ v ∈ l, v = none) :
    l.filterMap id = [] := by
  induction l with
  | nil => rfl
  | cons x xs ih =>
    have hx : x = none := h x (List.mem_cons_self x xs)
    subst hx
    simpa using ih fun v hv => h v (List.mem_cons_of_mem none hv)

/-- C6 counterexample: a non-empty filtered view with no total-erosion
rows makes the average-total-erosion mean the plain IEEE NaN, and an
empty filtered view makes it the ordinary number 0 — in neither case an
`EmptyGroupError` or an explicit "no data" signal, contrary to the claim
that the empty-group mean is "neither a crash nor an ordinary numeric
result such as 0 or NaN". -/
theorem C6_counterexample :
    avgTotalErosion [(⟨"France", 2000, "Wind erosion", "LW", some 5⟩ : ERow)] = FVal.nan
    ∧ avgTotalErosion ([] : List ERow) = FVal.real 0 := by
  constructor
  · simp +decide [avgTotalErosion, totalRows, meanOptVals]
  · rfl

/-- C6 amended: the MEAN reduction ignores null values; a group whose
values are all null (in particular an empty value list) yields the plain
IEEE NaN; the dashboard's average-total-erosion KPI yields the ordinary
number 0 on an empty view and NaN when no total-erosion row remains —
there is no `EmptyGroupError` and no explicit "no data" signal. -/
theorem C6_amended_mean_semantics :
    (∀ l : List (Option ℚ),
      meanOptVals l = meanOptVals (l.filter fun v => decide (v ≠ none)))
    ∧ (∀ l : List (Option ℚ), (∀ v ∈ l, v = none) → meanOptVals l = FVal.nan)
    ∧ avgTotalErosion ([] : List ERow) = FVal.real 0
    ∧ (∀ df : List ERow, df ≠ [] → (∀ r ∈ df, r.level ≠ "_T") →
        avgTotalErosion df = FVal.nan) := by
  refine ⟨?_, ?_, rfl, ?_⟩
  · intro l
    unfold meanOptVals
    rw [filterMap_id_filter_ne_none]
  · intro l h
    unfold meanOptVals
    rw [filterMap_id_all_none l h]
    rfl
  · intro df hne hlev
    unfold avgTotalErosion
    rw [if_neg (by simpa [List.isEmpty_iff] using hne)]
    have htot : totalRows df = [] := by
      unfold totalRows
      simp only [List.filter_eq_nil_iff, decide_eq_true_eq]
      exact hlev
    rw [htot]
    rfl

/-- Witness for the amended C6: a one-row view with only a low-severity
row is non-empty and has no total-erosion row, so the KPI mean is NaN. -/
theorem C6_amended_witness :
    ([(⟨"France", 2000, "Wind erosion", "LW", some 5⟩ : ERow)] ≠ ([] : List ERow))
    ∧ (∀ r ∈ [(⟨"France", 2000, "Wind erosion", "LW", some 5⟩ : ERow)], r.level ≠ "_T")
    ∧ avgTotalErosion [(⟨"France", 2000, "Wind erosion", "LW", some 5⟩ : ERow)]
        = FVal.nan := by
  refine ⟨by decide, by decide, ?_⟩
  exact C6_amended_mean_semantics.2.2.2 _ (by decide) (by decide)

theorem mem_filter_data (df : List ERow) (c : List String) (y : Int × Int)
    (t l : List String) (r : ERow) :
    r ∈ filter_data df c y t l ↔
      r ∈ df ∧ (c = [] ∨ r.country ∈ c) ∧ (y.1 ≤ r.time ∧ r.time ≤ y.2)
        ∧ (t = [] ∨ r.erosionType ∈ t) ∧ (l = [] ∨ r.level ∈ l) := by
  unfold filter_data
  cases c <;> cases t <;> cases l <;>
    simp [List.mem_filter, and_assoc] <;> tauto

/-- C7: `filter_data` keeps exactly the rows passing each selected filter,
with the time filter inclusive on both ends; the range (2010, 2010) keeps
exactly the rows with time 2010; a range entirely outside the data's
years yields the empty view, not an error; and the nutrients dashboard's
time filter is likewise inclusive on both ends. -/
theorem C7_time_filter_inclusive :
    (∀ (df : List ERow) (c : List String) (y : Int × Int) (t l : List String) (r : ERow),
      r ∈ filter_data df c y t l ↔
        r ∈ df ∧ (c = [] ∨ r.country ∈ c) ∧ (y.1 ≤ r.time ∧ r.time ≤ y.2)
          ∧ (t = [] ∨ r.erosionType ∈ t) ∧ (l = [] ∨ r.level ∈ l))
    ∧ (∀ (df : List ERow) (r : ERow),
      r ∈ filter_data df [] (2010, 2010) [] [] ↔ r ∈ df ∧ r.time = 2010)
    ∧ (∀ df : List ERow, (∀ r ∈ df, 2000 ≤ r.time ∧ r.time ≤ 2020) →
      filter_data df [] (2030, 2035) [] [] = [])
    ∧ (∀ (data : List NRow) (yr : Int × Int) (r : NRow),
      r ∈ nutrientsTimeFiltered data yr ↔ r ∈ data ∧ yr.1 ≤ r.time ∧ r.time ≤ yr.2) := by
  refine ⟨fun df c y t l r => mem_filter_data df c y t l r, ?_, ?_, ?_⟩
  · intro df r
    rw [mem_filter_data]
    constructor
    · rintro ⟨h1, _, ⟨h2, h3⟩, _, _⟩
      exact ⟨h1, by omega⟩
    · rintro ⟨h1, h2⟩
      exact ⟨h1, Or.inl rfl, ⟨by omega, by omega⟩, Or.inl rfl, Or.inl rfl⟩
  · intro df hspan
    rw [List.eq_nil_iff_forall_not_mem]
    intro r hr
    rw [mem_filter_data] at hr
    obtain ⟨hdf, _, ⟨h1, h2⟩, _, _⟩ := hr
    have := hspan r hdf
    omega
  · intro data yr r
    unfold nutrientsTimeFiltered
    simp [List.mem_filter]

/-- Witness for C7: a dataset whose rows all lie in 2000-2020 yields the
empty view for the out-of-range request (2030, 2035). -/
theorem C7_witness :
    (∀ r ∈ erosionExample, 2000 ≤ r.time ∧ r.time ≤ 2020)
    ∧ filter_data erosionExample [] (2030, 2035) [] [] = [] :=
  ⟨by decide, C7_time_filter_inclusive.2.2.1 erosionExample (by decide)⟩

instance : IsTotal (String × ℚ) fun p q => p.2 ≤ q.2 :=
  ⟨fun a b => le_total a.2 b.2⟩

instance : IsTrans (String × ℚ) fun p q => p.2 ≤ q.2 :=
  ⟨fun _ _ _ h1 h2 => le_trans h1 h2⟩

/-- C8 counterexample: on two countries with totals 1 < 2, the ranking
pipeline returns the rows in ascending order of the rank column — Austria
(1) before Belgium (2) — not in the descending order the claim states. -/
theorem C8_counterexample :
    top_countries landRankExample 15 = [("Austria", 1), ("Belgium", 2)]
    ∧ ¬ ((2 : ℚ) ≤ 1) := by
  constructor
  · simp +decide [top_countries, landCountryTotals, landRankExample, uniqueKeys,
      sumOptVals, sort_values_asc, tail_n, List.insertionSort, List.orderedInsert]
  · norm_num

/-- C8 amended: the ranking pipeline of `create_top_countries_chart`
returns at most `n` rows (fewer when the input has fewer groups), sorted
ascending by the rank column — the `n` largest totals with the largest
last, since pandas sorts ascending and takes `tail(n)`; tie order among
equal totals is not determined by country name (pandas quicksort is
unstable). -/
theorem C8_amended_top_countries (df : List LRow) (n : Nat) :
    (top_countries df n).length ≤ n
    ∧ List.Pairwise (fun p q : String × ℚ => p.2 ≤ q.2) (top_countries df n) := by
  constructor
  · unfold top_countries tail_n
    rw [List.length_drop]
    omega
  · unfold top_countries tail_n sort_values_asc
    exact List.Pairwise.sublist (List.drop_sublist _ _)
      (List.sorted_insertionSort _ _)

/-- C9: a filter whose entity selection is the "all" sentinel is a no-op:
the nutrients dashboard skips the area filter whenever "All areas" is
selected, and the erosion dashboard applies no country restriction when
the country list is empty — in both cases the result is exactly the view
of the remaining time and dimension filters. -/
theorem C9_all_sentinel_noop :
    (∀ (data : List NRow) (yr : Int × Int) (sel : List String),
      "All areas" ∈ sel →
      nutrientsFilteredData data yr sel = nutrientsTimeFiltered data yr)
    ∧ (∀ (df : List ERow) (y : Int × Int) (t l : List String),
      filter_data df [] y t l = eroTimeDimFiltered df y t l) := by
  constructor
  · intro data yr sel hsel
    unfold nutrientsFilteredData
    rw [if_neg (not_not_intro hsel)]
  · intro df y t l
    unfold filter_data eroTimeDimFiltered
    rfl

/-- Witness for C9: selecting ["All areas"] leaves exactly the
time-filtered view. -/
theorem C9_witness :
    ("All areas" ∈ ["All areas"])
    ∧ nutrientsFilteredData scenarioRows (2000, 2020) ["All areas"]
        = nutrientsTimeFiltered scenarioRows (2000, 2020) :=
  ⟨by decide, C9_all_sentinel_noop.1 scenarioRows (2000, 2020) ["All areas"] (by decide)⟩

/-- C10: the empty entity selection means "exclude all" in the nutrients
dashboard — without the "All areas" sentinel the `isin([])` filter keeps
no row — whereas in the erosion and land dashboards an empty country
selection is falsy and imposes no restriction, keeping every row that
passes the time and dimension filters. -/
theorem C10_empty_selection_semantics :
    (∀ (data : List NRow) (yr : Int × Int), nutrientsFilteredData data yr [] = [])
    ∧ (∀ (df : List ERow) (y : Int × Int) (t l : List String) (r : ERow),
      r ∈ df → y.1 ≤ r.time → r.time ≤ y.2 → (t = [] ∨ r.erosionType ∈ t) →
      (l = [] ∨ r.level ∈ l) → r ∈ filter_data df [] y t l)
    ∧ (∀ (df : List LRow) (y : Int × Int) (t : List String),
      land_filter_data df [] y t = landTimeTypeFiltered df y t) := by
  refine ⟨?_, ?_, ?_⟩
  · intro data yr
    unfold nutrientsFilteredData
    rw [if_pos (by simp)]
    simp
  · intro df y t l r h1 h2 h3 h4 h5
    rw [mem_filter_data]
    exact ⟨h1, Or.inl rfl, ⟨h2, h3⟩, h4, h5⟩
  · intro df y t
    unfold land_filter_data landTimeTypeFiltered
    rfl

/-- Witness for C10: with an empty country selection the erosion filter
keeps a row that passes the time filter. -/
theorem C10_witness :
    ((⟨"France", 2000, "Wind erosion", "_T", some 2⟩ : ERow) ∈ erosionExample)
    ∧ ((2000 : Int) ≤ 2000) ∧ ((2000 : Int) ≤ 2020)
    ∧ ((⟨"France", 2000, "Wind erosion", "_T", some 2⟩ : ERow)
        ∈ filter_data erosionExample [] (2000, 2020) [] []) :=
  ⟨by decide, by decide, by decide,
    C10_empty_selection_semantics.2.1 erosionExample (2000, 2020) [] [] _
      (by decide) (by decide) (by decide) (Or.inl rfl) (Or.inl rfl)⟩
